import Mathlib

/-!
Verification of the HelloWorld greeting-store repository.

The repository consists of one Solidity contract (`HelloWorld`, holding a
single `greet` string with a getter `greetFunction` and a validated setter
`setGreet`), a deployment script (`scripts/deploy.ts`), and a Mocha/Chai
test suite with four scenarios. The contract, the script and the suite are
embedded below as pure Lean functions; calls that can revert or fail return
`Except`, and a reverted transaction leaves the contract storage unchanged.
-/

namespace HelloWorld

/-- Equality of call outcomes is decidable when both components' is. -/
instance exceptDecEq {ε α : Type} [DecidableEq ε] [DecidableEq α] : DecidableEq (Except ε α)
  | Except.error a, Except.error b =>
    if h : a = b then Decidable.isTrue (h ▸ rfl)
    else Decidable.isFalse fun he => h (Except.error.inj he)
  | Except.error _, Except.ok _ => Decidable.isFalse fun he => Except.noConfusion he
  | Except.ok _, Except.error _ => Decidable.isFalse fun he => Except.noConfusion he
  | Except.ok a, Except.ok b =>
    if h : a = b then Decidable.isTrue (h ▸ rfl)
    else Decidable.isFalse fun he => h (Except.ok.inj he)

/-- Contract storage: `string private greet;`. -/
structure State where
  greet : String
deriving Repr, DecidableEq

/-- `constructor() { greet = "Hello, World!"; }` -/
def construct : State := { greet := "Hello, World!" }

/-- `function greetFunction() public view returns (string memory) { return greet; }`
Every external call carries a caller identity (`msg.sender`), which this body
never reads. The body has no revert path, so the call always returns
`Except.ok`; being a `view` function it hands back the storage untouched. -/
def greetFunction (msgSender : Nat) (s : State) : Except String (String × State) :=
  Except.ok (s.greet, s)

/-- `function setGreet(string memory _greet) public {
      require(bytes(_greet).length > 0, "Greeting cannot be empty");
      greet = _greet;
    }`
`bytes(_greet).length` is the byte length of the UTF-8 encoded argument.
The caller identity `msgSender` is `msg.sender`, never read by the body. -/
def setGreet (msgSender : Nat) (s : State) (g : String) : Except String State :=
  if 0 < g.utf8ByteSize then Except.ok { greet := g }
  else Except.error "Greeting cannot be empty"

/-- A `setGreet` transaction as seen from the chain: a revert rolls the
storage back, so on the error branch the state is the pre-call state. -/
def applySetGreet (msgSender : Nat) (s : State) (g : String) : State :=
  match setGreet msgSender s g with
  | Except.ok s' => s'
  | Except.error _ => s

/-- An external call against a deployed instance: a (state-preserving) read,
or a setter call by some caller with some argument. -/
inductive Op where
  | get (msgSender : Nat)
  | set (msgSender : Nat) (g : String)

/-- Effect of one call on the contract storage. -/
def applyOp (s : State) : Op → State
  | Op.get _ => s
  | Op.set c g => applySetGreet c s g

/-- The storage after a freshly constructed instance has served a sequence
of calls. -/
def run (ops : List Op) : State := ops.foldl applyOp construct

/-! ### The test suite (`test/HelloWorld.test.ts`)

`describe("HelloWorld contract")` obtains two signers `owner` and `addr1`,
deploys one instance in its `before` hook, and runs four `it` scenarios in
sequence against that shared instance. -/

/-- First signer from `ethers.getSigners()`; the default caller. -/
def owner : Nat := 0

/-- Second signer from `ethers.getSigners()`; used via `connect(addr1)`. -/
def addr1 : Nat := 1

/-- The `before` hook: deploy one fresh `HelloWorld` instance. -/
def suiteInitial : State := construct

/-- Storage after the second scenario's `setGreet("Hello, Ethereum!")`. -/
def stateAfterTest2 : State := applySetGreet owner suiteInitial "Hello, Ethereum!"

/-- Storage after the third scenario's attempted `setGreet("")`. -/
def stateAfterTest3 : State := applySetGreet owner stateAfterTest2 ""

/-- Storage after the fourth scenario's `connect(addr1).setGreet("Hello from addr1!")`. -/
def stateAfterTest4 : State := applySetGreet addr1 stateAfterTest3 "Hello from addr1!"

/-- Pass/fail verdicts of the four `it` scenarios, in source order, each
checking exactly the Chai assertion in the test file. -/
def suiteResults : List Bool :=
  [ decide (greetFunction owner suiteInitial = Except.ok ("Hello, World!", suiteInitial)),
    decide (greetFunction owner stateAfterTest2 = Except.ok ("Hello, Ethereum!", stateAfterTest2)),
    decide (setGreet owner stateAfterTest2 "" = Except.error "Greeting cannot be empty"),
    decide (greetFunction owner stateAfterTest4 = Except.ok ("Hello from addr1!", stateAfterTest4)) ]

/-! ### The deployment script (`scripts/deploy.ts`) -/

/-- Outcomes the execution environment hands to the script: the
`ethers.getContractFactory("HelloWorld")` lookup, and the
`deploy()`/`deployed()` step which on success yields the address the
environment assigned to the instance. Either may fail with an error. -/
structure Env where
  getContractFactory : Except String Unit
  deploy : Except String String

/-- `async function main()`: look up the factory, deploy, await
confirmation, then `console.log("HelloWorld deployed to:", hello.address)`.
Returns the lines written to standard output; a failure in either awaited
step propagates uncaught. -/
def main (env : Env) : Except String (List String) :=
  match env.getContractFactory with
  | Except.error e => Except.error e
  | Except.ok _ =>
    match env.deploy with
    | Except.error e => Except.error e
    | Except.ok addr => Except.ok ["HelloWorld deployed to: " ++ addr]

/-- Observable outcome of one script process run. -/
structure ScriptResult where
  exitCode : Nat
  stdout : List String
  stderr : List String
deriving Repr, DecidableEq

/-- `main().catch((error) => { console.error(error); process.exitCode = 1; })`:
on success the process exits 0 with `main`'s output; on failure the error is
written to standard error and the exit code is set to 1. No retry. -/
def runScript (env : Env) : ScriptResult :=
  match main env with
  | Except.ok out => { exitCode := 0, stdout := out, stderr := [] }
  | Except.error e => { exitCode := 1, stdout := [], stderr := [e] }

/-- Environment in which both awaited steps succeed. -/
def envOk : Env := { getContractFactory := Except.ok (), deploy := Except.ok "0x5FbDB2315678afecb367f032d93F642f64180aa3" }

/-- Environment in which the deployment step fails. -/
def envFail : Env := { getContractFactory := Except.ok (), deploy := Except.error "network unreachable" }

/-! ### Helper lemmas -/

/-- The `require` guard of `setGreet` holds exactly on non-empty strings:
the UTF-8 byte length is positive iff the string is non-empty. -/
theorem utf8ByteSize_pos_iff (s : String) : 0 < s.utf8ByteSize ↔ s ≠ "" := by
  cases s with
  | mk data =>
    rw [String.utf8ByteSize_mk, Nat.pos_iff_ne_zero, ne_eq, String.utf8Len_eq_zero]
    constructor
    · intro h he
      exact h (congrArg String.data he)
    · intro h he
      exact h (by rw [he])

/-- On a non-empty argument, `setGreet` succeeds and stores the argument. -/
theorem setGreet_ok (c : Nat) (st : State) (g : String) (h : g ≠ "") :
    setGreet c st g = Except.ok { greet := g } := by
  unfold setGreet
  rw [if_pos ((utf8ByteSize_pos_iff g).mpr h)]

/-- On the empty argument, `setGreet` reverts with the validation message. -/
theorem setGreet_empty (c : Nat) (st : State) :
    setGreet c st "" = Except.error "Greeting cannot be empty" := by
  unfold setGreet
  rw [if_neg]
  intro h
  exact (utf8ByteSize_pos_iff "").mp h rfl

/-- A call step never empties the stored greeting. -/
theorem applyOp_preserves_nonempty (st : State) (op : Op) (h : st.greet ≠ "") :
    (applyOp st op).greet ≠ "" := by
  cases op with
  | get _ => exact h
  | set c g =>
    show (applySetGreet c st g).greet ≠ ""
    unfold applySetGreet setGreet
    by_cases hg : 0 < g.utf8ByteSize
    · rw [if_pos hg]
      exact (utf8ByteSize_pos_iff g).mp hg
    · rw [if_neg hg]
      exact h

theorem foldl_preserves_nonempty (ops : List Op) (st : State) (h : st.greet ≠ "") :
    (ops.foldl applyOp st).greet ≠ "" := by
  induction ops generalizing st with
  | nil => exact h
  | cons op rest ih =>
    exact ih (applyOp st op) (applyOp_preserves_nonempty st op h)

/-! ### The claims -/

/-- C1: for every non-empty string `s`, after a successful `setGreet s`
the getter `greetFunction` returns exactly `s` (to any reader `r`). -/
theorem write_then_read (c r : Nat) (st : State) (s : String) (h : s ≠ "") :
    ∃ st', setGreet c st s = Except.ok st' ∧
      greetFunction r st' = Except.ok (s, st') := by
  refine ⟨{ greet := s }, setGreet_ok c st s h, rfl⟩

theorem write_then_read_witness :
    ("Hi" : String) ≠ "" ∧
      ∃ st', setGreet 0 construct "Hi" = Except.ok st' ∧
        greetFunction 1 st' = Except.ok ("Hi", st') :=
  ⟨by decide, write_then_read 0 1 construct "Hi" (by decide)⟩

/-- C2: `setGreet ""` reverts with exactly "Greeting cannot be empty", the
transaction leaves the storage unchanged, and the setter reverts iff its
argument is empty. -/
theorem empty_setter_validation (c : Nat) (st : State) :
    setGreet c st "" = Except.error "Greeting cannot be empty" ∧
    applySetGreet c st "" = st ∧
    (∀ g : String, (∃ e, setGreet c st g = Except.error e) ↔ g = "") := by
  refine ⟨setGreet_empty c st, ?_, ?_⟩
  · unfold applySetGreet
    rw [setGreet_empty c st]
  · intro g
    constructor
    · rintro ⟨e, he⟩
      by_contra hg
      rw [setGreet_ok c st g hg] at he
      exact Except.noConfusion he
    · intro hg
      exact ⟨"Greeting cannot be empty", by rw [hg]; exact setGreet_empty c st⟩

/-- C3: a freshly constructed instance answers `greetFunction` with exactly
"Hello, World!". -/
theorem initial_greeting (r : Nat) :
    greetFunction r construct = Except.ok ("Hello, World!", construct) := rfl

/-- C4: in every state reachable from construction by any sequence of
getter and setter calls (successful or reverted), the stored greeting is a
non-empty string. -/
theorem reachable_nonempty (ops : List Op) : (run ops).greet ≠ "" :=
  foldl_preserves_nonempty ops construct (by decide)

/-- C5: the setter's outcome does not depend on the caller: for any
non-empty input, any two callers both succeed with the same stored result,
which any reader then observes via the getter. -/
theorem setter_caller_independent (c₁ c₂ r : Nat) (st : State) (g : String) (h : g ≠ "") :
    setGreet c₁ st g = Except.ok { greet := g } ∧
    setGreet c₂ st g = setGreet c₁ st g ∧
    greetFunction r { greet := g } = Except.ok (g, { greet := g }) :=
  ⟨setGreet_ok c₁ st g h, by rw [setGreet_ok c₁ st g h, setGreet_ok c₂ st g h], rfl⟩

theorem setter_caller_independent_witness :
    ("Hey" : String) ≠ "" ∧
      (setGreet 0 construct "Hey" = Except.ok { greet := "Hey" } ∧
       setGreet 1 construct "Hey" = setGreet 0 construct "Hey" ∧
       greetFunction 2 { greet := "Hey" } = Except.ok ("Hey", { greet := "Hey" })) :=
  ⟨by decide, setter_caller_independent 0 1 2 construct "Hey" (by decide)⟩

/-- C6: the suite deploys one shared instance and its four scenarios, run
in sequence against it, all pass: the initial read sees "Hello, World!",
the write of "Hello, Ethereum!" is read back, the empty write reverts with
"Greeting cannot be empty", and `addr1`'s write of "Hello from addr1!" is
read back. -/
theorem suite_four_scenarios :
    suiteResults = [true, true, true, true] ∧ stateAfterTest3 = stateAfterTest2 := by
  constructor <;> rfl

/-- C7: the getter takes no input beyond the call context, cannot fail, and
leaves the contract storage unchanged: it always returns `ok` with the
stored value paired with the untouched state. -/
theorem getter_pure (r : Nat) (st : State) :
    greetFunction r st = Except.ok (st.greet, st) := rfl

/-- C8: on a successful run, the deployment script writes exactly one line
to standard output, "HelloWorld deployed to: " followed by the address the
environment assigned. -/
theorem deploy_script_output (env : Env) (a : String)
    (h₁ : env.getContractFactory = Except.ok ())
    (h₂ : env.deploy = Except.ok a) :
    (runScript env).stdout = ["HelloWorld deployed to: " ++ a] ∧
    (runScript env).stdout.length = 1 := by
  unfold runScript main
  rw [h₁, h₂]
  exact ⟨rfl, rfl⟩

theorem deploy_script_output_witness :
    envOk.getContractFactory = Except.ok () ∧
    envOk.deploy = Except.ok "0x5FbDB2315678afecb367f032d93F642f64180aa3" ∧
    ((runScript envOk).stdout
        = ["HelloWorld deployed to: 0x5FbDB2315678afecb367f032d93F642f64180aa3"] ∧
      (runScript envOk).stdout.length = 1) :=
  ⟨rfl, rfl, deploy_script_output envOk "0x5FbDB2315678afecb367f032d93F642f64180aa3" rfl rfl⟩

/-- C9: the script's exit status is 0 iff its top-level operation succeeds;
on any failure the error is written to standard error and the exit status
is 1 (non-zero), with no retry. -/
theorem deploy_script_exit_status (env : Env) :
    ((runScript env).exitCode = 0 ↔ ∃ out, main env = Except.ok out) ∧
    (∀ e, main env = Except.error e →
      (runScript env).exitCode = 1 ∧ (runScript env).stderr = [e]) := by
  cases hm : main env with
  | ok out =>
    refine ⟨⟨fun _ => ⟨out, rfl⟩, fun _ => ?_⟩, fun e he => Except.noConfusion he⟩
    unfold runScript
    rw [hm]
  | error e =>
    refine ⟨⟨fun h => ?_, fun h => ?_⟩, fun e₂ he => ?_⟩
    · unfold runScript at h
      rw [hm] at h
      exact absurd h one_ne_zero
    · obtain ⟨out, ho⟩ := h
      exact Except.noConfusion ho
    · cases he
      unfold runScript
      rw [hm]
      exact ⟨rfl, rfl⟩

theorem deploy_script_exit_status_witness :
    main envFail = Except.error "network unreachable" ∧
    ((runScript envFail).exitCode = 1 ∧ (runScript envFail).stderr = ["network unreachable"]) :=
  ⟨rfl, (deploy_script_exit_status envFail).2 "network unreachable" rfl⟩

/-- C10: the setter overwrites: for non-empty `s₁`, `s₂`, setting `s₁` then
`s₂` leaves the same state as setting `s₂` alone (by any callers), and
setting the same value twice is idempotent. -/
theorem setter_last_writer_wins (c₁ c₂ c₃ : Nat) (st : State) (s₁ s₂ : String)
    (h₁ : s₁ ≠ "") (h₂ : s₂ ≠ "") :
    applySetGreet c₂ (applySetGreet c₁ st s₁) s₂ = applySetGreet c₃ st s₂ ∧
    applySetGreet c₂ (applySetGreet c₁ st s₁) s₁ = applySetGreet c₁ st s₁ := by
  have happ : ∀ c st', applySetGreet c st' s₁ = { greet := s₁ } := by
    intro c st'
    unfold applySetGreet
    rw [setGreet_ok c st' s₁ h₁]
  have happ₂ : ∀ c st', applySetGreet c st' s₂ = { greet := s₂ } := by
    intro c st'
    unfold applySetGreet
    rw [setGreet_ok c st' s₂ h₂]
  rw [happ, happ, happ₂, happ₂]
  exact ⟨rfl, rfl⟩

theorem setter_last_writer_wins_witness :
    ("a" : String) ≠ "" ∧ ("b" : String) ≠ "" ∧
      (applySetGreet 1 (applySetGreet 0 construct "a") "b" = applySetGreet 2 construct "b" ∧
       applySetGreet 1 (applySetGreet 0 construct "a") "a" = applySetGreet 0 construct "a") :=
  ⟨by decide, by decide, setter_last_writer_wins 0 1 2 construct "a" "b" (by decide) (by decide)⟩

end HelloWorld
